import Mathlib

/-!
Shallow embedding of the event-polling core of the `n8n-nodes-energyweb`
plugin (file `src/nodes/EnergyWeb/EnergyWebTrigger.node.ts` and its helpers
in `utils/helpers.ts` / `transport/rpcClient.ts`), together with theorems
checking the natural-language specification against it.

Remote I/O (JSON-RPC calls, the EW Scan indexer) is modelled by oracle
arguments of type `Except String _`: `.ok` is a successful response,
`.error` a thrown transport error.  JavaScript arbitrary-precision
`BigInt` arithmetic is modelled by `Nat`/`Int` (the source only uses
exact integer values in the places the theorems touch).
-/

set_option maxRecDepth 100000

namespace EnergyWeb

/-!
Character-list models of the string primitives the source uses.  They are
extensionally the standard library's `String` operations on well-formed
ASCII data, but stated over `String.data` so every definition in this file
evaluates by kernel reduction.
-/

/-- Character count of a string (all strings here are ASCII). -/
def strLen (s : String) : Nat := s.data.length

/-- First `n` characters of a string. -/
def strTake (s : String) (n : Nat) : String := ⟨s.data.take n⟩

/-- String without its first `n` characters. -/
def strDrop (s : String) (n : Nat) : String := ⟨s.data.drop n⟩

/-- ASCII lower-casing of one character, as `toLowerCase` acts on the
address strings of the source. -/
def charToLower (c : Char) : Char :=
  if 'A' ≤ c && c ≤ 'Z' then Char.ofNat (c.toNat + 32) else c

/-- Models JavaScript `String.prototype.toLowerCase()` on ASCII data. -/
def strToLower (s : String) : String := ⟨s.data.map charToLower⟩

/-- Models JavaScript `Array.prototype.slice(-n)` / trailing `n` elements
(for `n > 0`, which is the only way the source uses it): drop all but the
last `n` entries. -/
def sliceLast (n : Nat) (l : List α) : List α :=
  l.drop (l.length - n)

/-- Models JavaScript `String.prototype.slice(a, b)` for `0 ≤ a ≤ b`. -/
def jsSlice (s : String) (a b : Nat) : String :=
  ⟨(s.data.drop a).take (b - a)⟩

/-- Models JavaScript `String.prototype.slice(-n)` for `n > 0`: the last
`n` characters (the whole string when it is shorter). -/
def jsSliceLast (s : String) (n : Nat) : String :=
  strDrop s (strLen s - n)

/-- Models JavaScript `String.prototype.padEnd(len, c)`. -/
def jsPadEnd (s : String) (len : Nat) (c : Char) : String :=
  if len ≤ strLen s then s else s ++ String.mk (List.replicate (len - strLen s) c)

/-- Numeric value of one hexadecimal digit, over character codes
(`0`–`9` are codes 48–57, `a`–`f` codes 97–102, `A`–`F` codes 65–70);
`none` for any other character. -/
def hexDigitVal (c : Char) : Option Nat :=
  let n := c.toNat
  if 48 ≤ n && n ≤ 57 then some (n - 48)
  else if 97 ≤ n && n ≤ 102 then some (n - 87)
  else if 65 ≤ n && n ≤ 70 then some (n - 55)
  else none

/-- One hexadecimal digit, as accepted by the character class
`[a-fA-F0-9]` used throughout `utils/helpers.ts`. -/
def isHexDigitChar (c : Char) : Bool :=
  (hexDigitVal c).isSome

/-- `isValidAddress` from `utils/helpers.ts`:
`/^0x[a-fA-F0-9]{40}$/.test(address)`. -/
def isValidAddress (address : String) : Bool :=
  strLen address == 42 && strTake address 2 == "0x"
    && (strDrop address 2).data.all isHexDigitChar

/-- `hexToNumber` from `utils/helpers.ts`: `parseInt(hex, 16)`.  Skips
leading whitespace, an optional sign and an optional `0x` prefix, then
reads the longest prefix of hex digits; `none` models JavaScript `NaN`
(no digits at all).  The JavaScript result is a double; the source only
applies this to small block numbers / log indices where the double is
exact, so `Int` is faithful there. -/
def hexToNumber (hex : String) : Option Int :=
  let cs := hex.data.dropWhile Char.isWhitespace
  let signed : Int × List Char :=
    match cs with
    | '-' :: rest => (-1, rest)
    | '+' :: rest => (1, rest)
    | _ => (1, cs)
  let body : List Char :=
    match signed.2 with
    | '0' :: 'x' :: rest => rest
    | '0' :: 'X' :: rest => rest
    | _ => signed.2
  let ds := body.takeWhile (fun c => (hexDigitVal c).isSome)
  if ds.isEmpty then none
  else some (signed.1 * (ds.foldl (fun acc c => acc * 16 + ((hexDigitVal c).getD 0)) 0 : Nat))

/-- The poll state (`IPollState` in `EnergyWebTrigger.node.ts`), read from
and written to the workflow static data. -/
structure PollState where
  lastBlockNumber : Nat
  lastTimestamp : Nat
  processedTxHashes : List String
  deriving DecidableEq

/-- An event as far as the poll orchestrator inspects it: the orchestrator
only ever reads `json.transactionHash` from the decoders' items. -/
structure TriggerEvent where
  transactionHash : String
  deriving DecidableEq

/-- Result of one `poll()` invocation.  `aborted` is the rethrown
`NodeOperationError` of the surrounding try/catch; in both constructors the
second component is the poll state as left in the workflow static data. -/
inductive PollOutcome where
  | aborted (message : String) (state : PollState)
  | done (output : Option (List TriggerEvent)) (state : PollState)
  deriving DecidableEq

/-- The `fromBlock` computation of `EnergyWebTrigger.poll`
(lines 206–214): on the first poll ever (`lastBlockNumber === 0`) look
back `lookbackBlocks` from the current height (`Math.max(0, ...)` is the
truncated `Nat` subtraction), otherwise resume at `lastBlockNumber + 1`. -/
def computeFromBlock (s : PollState) (lookbackBlocks currentBlock : Nat) : Nat :=
  if s.lastBlockNumber = 0 then currentBlock - lookbackBlocks
  else s.lastBlockNumber + 1

/-- `EnergyWebTrigger.poll` (lines 177–272), with the two remote
interactions as oracles: `heightResult` is the `eth_blockNumber` call
(already hex-decoded) and `decoder` is the per-trigger-kind poll function
selected by the `switch`, applied to `(fromBlock, currentBlock)`.  `now`
is `Date.now()`.  State mutation (lines 253–259) happens only after the
decoder returned; any thrown error is rethrown as
`Poll failed: ...` with the state untouched. -/
def poll (s : PollState) (lookbackBlocks : Nat)
    (heightResult : Except String Nat)
    (decoder : Nat → Nat → Except String (List TriggerEvent))
    (now : Nat) : PollOutcome :=
  match heightResult with
  | .error e => .aborted ("Poll failed: " ++ e) s
  | .ok currentBlock =>
    let fromBlock := computeFromBlock s lookbackBlocks currentBlock
    if fromBlock > currentBlock then
      .done none s
    else
      match decoder fromBlock currentBlock with
      | .error e => .aborted ("Poll failed: " ++ e) s
      | .ok events =>
        let newEvents := events.filter
          (fun ev => !(s.processedTxHashes.contains ev.transactionHash))
        let s' : PollState :=
          { lastBlockNumber := currentBlock
            lastTimestamp := now
            processedTxHashes :=
              sliceLast 1000 ((newEvents.map TriggerEvent.transactionHash).filter (· != "")) }
        if newEvents.isEmpty then .done none s'
        else .done (some newEvents) s'

/-- A raw log record as delivered by `eth_getLogs` (the shape the trigger
decoders destructure). -/
structure LogRecord where
  address : String
  topics : List String
  data : String
  blockNumber : String
  transactionHash : String
  logIndex : String
  deriving DecidableEq

/-- Shared guard of every decoder's address filter:
`if (filterAddress && isValidAddress(filterAddress))` — a non-empty,
format-valid filter address activates the filter. -/
def addressFilterActive (filterAddress : String) : Bool :=
  filterAddress != "" && isValidAddress filterAddress

/-- The `log.topics[i] ? '0x' + log.topics[i].slice(-40) : 'unknown'`
pattern used by the decoders to read an address out of an indexed topic
(a missing — or falsy, i.e. empty — topic yields `'unknown'`). -/
def topicAddress (topic : Option String) : String :=
  match topic with
  | some t => if t = "" then "unknown" else "0x" ++ jsSliceLast t 40
  | none => "unknown"

/-- The event topic constant of `pollCertificateIssued` (line 289):
`'0x' + 'CertificateIssued'.padEnd(64, '0').slice(0, 64)`. -/
def certificateIssuedTopic : String :=
  "0x" ++ jsSlice (jsPadEnd "CertificateIssued" 64 '0') 0 64

/-- The event topic constant of `pollCertificateTransferred` (line 351,
ERC-1155 `TransferSingle`). -/
def certificateTransferredTopic : String :=
  "0xc3d58168c5ae7397731d063d5bbf3d657854427343f4c083240f7aacaa2d0f62"

/-- The event topic constant of `pollDIDCreated` (line 413,
`DIDOwnerChanged`). -/
def didCreatedTopic : String :=
  "0x38a5a6e68f30ed1ab45860a4afb34bcb2fc00f22ca462d249b8a8d40cda6f7a3"

/-- The event topic constant of `pollDIDUpdated` (line 481,
`DIDAttributeChanged`). -/
def didUpdatedTopic : String :=
  "0x18ab6b2ae3d64571f0c9f8c5e2b72f3a23bfa3773b1c3c4e5d3e2fd0e3e1c4b2"

/-- Checks the spec's format for an event topic identifier: the string
`0x` followed by exactly 64 hexadecimal digits (a 32-byte hash). -/
def isTopicHash (s : String) : Bool :=
  strLen s == 66 && strTake s 2 == "0x" && (strDrop s 2).data.all isHexDigitChar

/-- A `certificateIssued` domain event as built by `pollCertificateIssued`
(lines 309–334).  The ambient `network` label and `Date.now()` timestamp
are omitted (host-supplied, not derived from the log). -/
structure CertIssuedEvent where
  certificateId : String
  toAddr : String
  contractAddress : String
  blockNumber : Option Int
  transactionHash : String
  logIndex : Option Int
  deriving DecidableEq

/-- The per-log body of `pollCertificateIssued` (lines 309–334):
`certificateId` from `topics[1]` via `hexToNumber(...).toString()`
(`'unknown'` when the topic is missing/falsy, `NaN` when it does not
parse), recipient address from `topics[2]`, and the address filter on the
recipient when active. -/
def certIssuedEvents (filterAddress : String) (logs : List LogRecord) :
    List CertIssuedEvent :=
  logs.filterMap fun log =>
    let certificateId :=
      match log.topics.get? 1 with
      | some t =>
        if t = "" then "unknown"
        else match hexToNumber t with
          | some v => toString v
          | none => "NaN"
      | none => "unknown"
    let toAddress := topicAddress (log.topics.get? 2)
    if addressFilterActive filterAddress
        && strToLower toAddress != strToLower filterAddress then
      none
    else
      some { certificateId := certificateId
             toAddr := toAddress
             contractAddress := log.address
             blockNumber := hexToNumber log.blockNumber
             transactionHash := log.transactionHash
             logIndex := hexToNumber log.logIndex }

/-- A `certificateTransferred` domain event as built by
`pollCertificateTransferred` (lines 383–395). -/
structure CertTransferEvent where
  fromAddr : String
  toAddr : String
  contractAddress : String
  blockNumber : Option Int
  transactionHash : String
  logIndex : Option Int
  deriving DecidableEq

/-- The per-log body of `pollCertificateTransferred` (lines 371–396):
`from` from `topics[2]`, `to` from `topics[3]`, and, when the address
filter is active, keep the log only if `from` or `to` equals the filter
address case-insensitively. -/
def certTransferredEvents (filterAddress : String) (logs : List LogRecord) :
    List CertTransferEvent :=
  logs.filterMap fun log =>
    let fromAddress := topicAddress (log.topics.get? 2)
    let toAddress := topicAddress (log.topics.get? 3)
    if addressFilterActive filterAddress
        && strToLower fromAddress != strToLower filterAddress
        && strToLower toAddress != strToLower filterAddress then
      none
    else
      some { fromAddr := fromAddress
             toAddr := toAddress
             contractAddress := log.address
             blockNumber := hexToNumber log.blockNumber
             transactionHash := log.transactionHash
             logIndex := hexToNumber log.logIndex }

/-- A `didCreated` domain event as built by `pollDIDCreated`
(lines 451–463). -/
structure DIDCreatedEvent where
  did : String
  identity : String
  owner : String
  blockNumber : Option Int
  transactionHash : String
  logIndex : Option Int
  deriving DecidableEq

/-- The per-log body of `pollDIDCreated` (lines 433–464): identity from
`topics[1]`, owner from `data.slice(26, 66)`; only self-owned identities
(`identity == owner`, case-insensitively) count as newly created; then the
address filter on `identity`.  `isVolta` selects the DID method prefix. -/
def didCreatedEvents (isVolta : Bool) (filterAddress : String)
    (logs : List LogRecord) : List DIDCreatedEvent :=
  logs.filterMap fun log =>
    let identity := topicAddress (log.topics.get? 1)
    let owner := if log.data = "" then "unknown" else "0x" ++ jsSlice log.data 26 66
    if strToLower identity != strToLower owner then
      none
    else if addressFilterActive filterAddress
        && strToLower identity != strToLower filterAddress then
      none
    else
      some { did := "did:ethr:" ++ (if isVolta then "volta" else "ewc") ++ ":" ++ identity
             identity := identity
             owner := owner
             blockNumber := hexToNumber log.blockNumber
             transactionHash := log.transactionHash
             logIndex := hexToNumber log.logIndex }

/-- A `didUpdated` domain event as built by `pollDIDUpdated`
(lines 513–524). -/
structure DIDUpdatedEvent where
  did : String
  identity : String
  blockNumber : Option Int
  transactionHash : String
  logIndex : Option Int
  deriving DecidableEq

/-- The per-log body of `pollDIDUpdated` (lines 501–525): identity from
`topics[1]`, address filter on `identity`. -/
def didUpdatedEvents (isVolta : Bool) (filterAddress : String)
    (logs : List LogRecord) : List DIDUpdatedEvent :=
  logs.filterMap fun log =>
    let identity := topicAddress (log.topics.get? 1)
    if addressFilterActive filterAddress
        && strToLower identity != strToLower filterAddress then
      none
    else
      some { did := "did:ethr:" ++ (if isVolta then "volta" else "ewc") ++ ":" ++ identity
             identity := identity
             blockNumber := hexToNumber log.blockNumber
             transactionHash := log.transactionHash
             logIndex := hexToNumber log.logIndex }

/-- A log item as returned by the EW Scan `/v1/logs` endpoint (snake_case
fields, numeric block number and log index). -/
structure ScanLog where
  address : String
  topics : List String
  data : String
  blockNumber : Nat
  transactionHash : String
  logIndex : Nat
  deriving DecidableEq

/-- An `assetRegistered` domain event as built by `pollAssetRegistered`
(lines 572–583). -/
structure AssetEvent where
  owner : String
  contractAddress : String
  blockNumber : Nat
  transactionHash : String
  logIndex : Nat
  deriving DecidableEq

/-- `pollAssetRegistered` (lines 530–591): the whole body is wrapped in a
try/catch whose catch returns `[]` ("Return empty if EW Scan API not
available"), so the indexer oracle's failure degrades to no events.  On
success, `response.items || []` is decoded: owner from `topics[1]`,
address filter on the owner. -/
def pollAssetRegistered (filterAddress : String)
    (scanResult : Except String (Option (List ScanLog))) : List AssetEvent :=
  match scanResult with
  | .error _ => []
  | .ok items =>
    (items.getD []).filterMap fun log =>
      let owner := topicAddress (log.topics.get? 1)
      if addressFilterActive filterAddress
          && strToLower owner != strToLower filterAddress then
        none
      else
        some { owner := owner
               contractAddress := log.address
               blockNumber := log.blockNumber
               transactionHash := log.transactionHash
               logIndex := log.logIndex }

/-- A transaction inside a block fetched by `eth_getBlockByNumber(_, true)`,
as `pollLargeTransfer` reads it.  `value` is the exact integer produced by
`BigInt(tx.value || '0')`. -/
structure Tx where
  hash : String
  txFrom : String
  txTo : Option String
  value : Nat
  deriving DecidableEq

/-- A block as `pollLargeTransfer` reads it; `transactions` is `none` when
the field is missing (the `!blockData.transactions` guard). -/
structure BlockData where
  number : String
  timestamp : String
  transactions : Option (List Tx)
  deriving DecidableEq

/-- `thresholdWei` of `pollLargeTransfer` (line 604):
`BigInt(threshold) * BigInt(10 ** 18)` — `10 ** 18` is exactly
representable as a double, so this is the exact integer `threshold·10¹⁸`. -/
def thresholdWei (threshold : Nat) : Nat :=
  threshold * 10 ^ 18

/-- Whether one transaction passes the address filter of
`pollLargeTransfer` (lines 642–650): when the filter is active, `from` or
`to` must equal the filter address case-insensitively (`to` being `null`
compares as the empty string). -/
def passesAddressFilter (filterAddress txFrom : String) (txTo : Option String) : Bool :=
  !(addressFilterActive filterAddress
    && strToLower txFrom != strToLower filterAddress
    && ((txTo.map strToLower).getD "") != strToLower filterAddress)

/-- Whether `pollLargeTransfer` emits an event for one transaction
(lines 634–650): skip when `value < thresholdWei`, then skip when the
active address filter matches neither participant. -/
def largeTransferIncluded (threshold : Nat) (filterAddress : String) (tx : Tx) : Bool :=
  if tx.value < thresholdWei threshold then false
  else if !(passesAddressFilter filterAddress tx.txFrom tx.txTo) then false
  else true

/-- `pollLargeTransfer` (lines 593–677) at the level of which transactions
produce events: the batched double loop visits every block of
`[fromBlock, toBlock]` exactly once in ascending order; `blockResult` is
the `eth_getBlockByNumber` oracle; a per-block throw (`.error`), a `null`
block or missing `transactions` contribute nothing ("Skip problematic
blocks"); within a block, transactions are kept by
`largeTransferIncluded` in order. -/
def pollLargeTransfer (threshold : Nat) (filterAddress : String)
    (blockResult : Nat → Except String (Option BlockData))
    (fromBlock toBlock : Nat) : List Tx :=
  (List.range' fromBlock (toBlock + 1 - fromBlock)).flatMap fun b =>
    match blockResult b with
    | .error _ => []
    | .ok none => []
    | .ok (some blk) =>
      match blk.transactions with
      | none => []
      | some txs => txs.filter (largeTransferIncluded threshold filterAddress)

/-- The type of the per-trigger-kind poll functions as the orchestrator
consumes them. -/
abbrev Decoder := Nat → Nat → Except String (List TriggerEvent)

/-- Auxiliary: a `filterMap` whose function always succeeds keeps every
element. -/
theorem length_filterMap_some {α β : Type} (g : α → β) (l : List α) :
    (l.filterMap (fun a => some (g a))).length = l.length := by
  induction l with
  | nil => rfl
  | cons a l ih => simp [List.filterMap_cons, ih]

/-- C2: if the computed `fromBlock` exceeds the fetched chain height `H`,
the poll returns `null` with the cursor completely unchanged; otherwise
every non-aborted poll leaves `lastBlockNumber = H`, events or not. -/
theorem poll_skip_and_advance (s : PollState) (lb H now : Nat) (dec : Decoder) :
    (computeFromBlock s lb H > H → poll s lb (.ok H) dec now = .done none s) ∧
    (∀ out s', computeFromBlock s lb H ≤ H →
      poll s lb (.ok H) dec now = .done out s' → s'.lastBlockNumber = H) := by
  constructor
  · intro hgt
    simp only [poll]
    rw [if_pos hgt]
  · intro out s' hle hdone
    simp only [poll] at hdone
    rw [if_neg (by omega)] at hdone
    split at hdone
    · simp at hdone
    · split at hdone
      · cases hdone; rfl
      · cases hdone; rfl

/-- Witness for `poll_skip_and_advance` at concrete inputs: a stale height
(cursor at 10, height 5) yields `null` and an unchanged state, and a fresh
window (cursor at 3, height 7) advances `lastBlockNumber` to 7. -/
theorem poll_skip_and_advance_witness :
    poll ⟨10, 2, ["0xa"]⟩ 100 (.ok 5) (fun _ _ => .ok []) 9 = .done none ⟨10, 2, ["0xa"]⟩ ∧
    (⟨7, 9, []⟩ : PollState).lastBlockNumber = 7 :=
  ⟨(poll_skip_and_advance ⟨10, 2, ["0xa"]⟩ 100 5 9 (fun _ _ => .ok [])).1 (by decide),
   (poll_skip_and_advance ⟨3, 2, []⟩ 100 7 9 (fun _ _ => .ok [])).2 none ⟨7, 9, []⟩
     (by decide) (by decide)⟩

/-- C3: a failed chain-height fetch, or a decoder failure, aborts the whole
poll with an error and returns the cursor state exactly as it was —
no field is mutated. -/
theorem poll_aborts_without_mutation (s : PollState) (lb now : Nat) (dec : Decoder) :
    (∀ e, poll s lb (.error e) dec now = .aborted ("Poll failed: " ++ e) s) ∧
    (∀ H e, computeFromBlock s lb H ≤ H →
      dec (computeFromBlock s lb H) H = .error e →
      poll s lb (.ok H) dec now = .aborted ("Poll failed: " ++ e) s) := by
  constructor
  · intro e; rfl
  · intro H e hle hdec
    simp only [poll]
    rw [if_neg (by omega), hdec]

/-- Witness for `poll_aborts_without_mutation`: both abort paths at
concrete inputs, returning the original state `⟨4, 2, ["0xa"]⟩`. -/
theorem poll_aborts_without_mutation_witness :
    poll ⟨4, 2, ["0xa"]⟩ 100 (.error "down") (fun _ _ => .ok []) 9
      = .aborted "Poll failed: down" ⟨4, 2, ["0xa"]⟩ ∧
    poll ⟨4, 2, ["0xa"]⟩ 100 (.ok 6) (fun _ _ => .error "rpc") 9
      = .aborted "Poll failed: rpc" ⟨4, 2, ["0xa"]⟩ :=
  ⟨(poll_aborts_without_mutation ⟨4, 2, ["0xa"]⟩ 100 9 (fun _ _ => .ok [])).1 "down",
   (poll_aborts_without_mutation ⟨4, 2, ["0xa"]⟩ 100 9 (fun _ _ => .error "rpc")).2 6 "rpc"
     (by decide) rfl⟩

/-- C4: the scan window is `[fromBlock, H]` with
`fromBlock = max(0, H - lookbackBlocks)` on a never-polled cursor and
`lastBlockNumber + 1` otherwise; the poll consults the decoder only at
that window (so `toBlock` is always `H`); and the spec's two concrete
instances: `(lastBlockNumber 0, lookback 100, H 500) ↦ 400` and
`(lastBlockNumber 400, H 450) ↦ 401`. -/
theorem poll_scan_window (s : PollState) (lb H : Nat) :
    (s.lastBlockNumber = 0 →
      (computeFromBlock s lb H : Int) = max 0 ((H : Int) - (lb : Int))) ∧
    (s.lastBlockNumber ≠ 0 → computeFromBlock s lb H = s.lastBlockNumber + 1) ∧
    (∀ now (d₁ d₂ : Decoder),
      d₁ (computeFromBlock s lb H) H = d₂ (computeFromBlock s lb H) H →
      poll s lb (.ok H) d₁ now = poll s lb (.ok H) d₂ now) ∧
    computeFromBlock ⟨0, 0, []⟩ 100 500 = 400 ∧
    computeFromBlock ⟨400, 0, []⟩ 100 450 = 401 := by
  refine ⟨?_, ?_, ?_, by decide, by decide⟩
  · intro h0
    simp only [computeFromBlock, h0, if_pos]
    omega
  · intro h0
    simp only [computeFromBlock, if_neg h0]
  · intro now d₁ d₂ hd
    simp only [poll]
    by_cases hgt : computeFromBlock s lb H > H
    · rw [if_pos hgt, if_pos hgt]
    · rw [if_neg hgt, if_neg hgt, hd]

/-- Witness for `poll_scan_window`: the first-poll window, the
subsequent-poll window, and decoder-irrelevance outside the window, at
concrete inputs. -/
theorem poll_scan_window_witness :
    (computeFromBlock ⟨0, 0, []⟩ 100 500 : Int) = max 0 ((500 : Int) - (100 : Int)) ∧
    computeFromBlock ⟨400, 0, []⟩ 100 450 = 401 ∧
    poll ⟨0, 0, []⟩ 100 (.ok 500) (fun a b => if a = 400 ∧ b = 500 then .ok [] else .error "x") 9
      = poll ⟨0, 0, []⟩ 100 (.ok 500) (fun _ _ => .ok []) 9 :=
  ⟨(poll_scan_window ⟨0, 0, []⟩ 100 500).1 rfl,
   (poll_scan_window ⟨400, 0, []⟩ 100 450).2.1 (by decide),
   (poll_scan_window ⟨0, 0, []⟩ 100 500).2.2.1 9
     (fun a b => if a = 400 ∧ b = 500 then .ok [] else .error "x") (fun _ _ => .ok [])
     rfl⟩

/-- C5: a non-null batch never contains an event whose hash was already in
the pre-poll cursor's `processedTxHashes`, and it is never empty. -/
theorem poll_batch_deduped_nonempty (s : PollState) (lb now : Nat)
    (hr : Except String Nat) (dec : Decoder)
    (out : List TriggerEvent) (s' : PollState)
    (h : poll s lb hr dec now = .done (some out) s') :
    out ≠ [] ∧ ∀ ev ∈ out, ev.transactionHash ∉ s.processedTxHashes := by
  rcases hr with e | H
  · simp [poll] at h
  · simp only [poll] at h
    split at h
    · simp at h
    · split at h
      · simp at h
      · split at h
        · simp at h
        · rename_i hemp
          cases h
          refine ⟨?_, ?_⟩
          · intro hnil
            rw [hnil] at hemp
            simp at hemp
          · intro ev hev
            rw [List.mem_filter] at hev
            have hc := hev.2
            simp only [List.contains, Bool.not_eq_eq_eq_not, Bool.not_true,
              List.elem_eq_mem, decide_eq_false_iff_not] at hc
            exact hc

/-- Witness for `poll_batch_deduped_nonempty`: a poll whose decoder
returns one already-seen hash and one new hash outputs exactly the new
one. -/
theorem poll_batch_deduped_nonempty_witness :
    ([⟨"0xb"⟩] : List TriggerEvent) ≠ [] ∧
      ∀ ev ∈ ([⟨"0xb"⟩] : List TriggerEvent),
        ev.transactionHash ∉ (⟨3, 0, ["0xa"]⟩ : PollState).processedTxHashes :=
  poll_batch_deduped_nonempty ⟨3, 0, ["0xa"]⟩ 100 9 (.ok 5)
    (fun _ _ => .ok [⟨"0xa"⟩, ⟨"0xb"⟩]) [⟨"0xb"⟩]
    ⟨5, 9, ["0xb"]⟩ (by decide)

/-- C1 (amended): after every successful poll that scanned a window, the
cursor's `processedTxHashes` equals the trailing 1000 transaction hashes
of this poll's emitted batch alone (empty hashes dropped); the previous
cursor's entries are not carried over. -/
theorem poll_processedTxHashes_trailing_emitted (s : PollState) (lb H now : Nat)
    (dec : Decoder) (out : Option (List TriggerEvent)) (s' : PollState)
    (hw : computeFromBlock s lb H ≤ H)
    (h : poll s lb (.ok H) dec now = .done out s') :
    s'.processedTxHashes
      = sliceLast 1000 (((out.getD []).map TriggerEvent.transactionHash).filter (· != "")) := by
  simp only [poll] at h
  rw [if_neg (by omega)] at h
  split at h
  · simp at h
  · split at h
    · rename_i hemp
      cases h
      rw [List.isEmpty_iff] at hemp
      simp only [Option.getD_none, hemp]
    · cases h
      rfl

/-- Witness for `poll_processedTxHashes_trailing_emitted`: a concrete
poll emitting one event stores exactly that event's hash. -/
theorem poll_processedTxHashes_trailing_emitted_witness :
    (⟨10, 7, ["0xbbb"]⟩ : PollState).processedTxHashes
      = sliceLast 1000
          ((((some [⟨"0xbbb"⟩] : Option (List TriggerEvent)).getD []).map
            TriggerEvent.transactionHash).filter (· != "")) :=
  poll_processedTxHashes_trailing_emitted ⟨5, 0, ["0xaaa"]⟩ 100 10 7
    (fun _ _ => .ok [⟨"0xbbb"⟩]) (some [⟨"0xbbb"⟩]) ⟨10, 7, ["0xbbb"]⟩
    (by decide) (by decide)

/-- Counterexample to C1 as stated: with previous `processedTxHashes
= ["0xaaa"]` and one newly emitted hash `"0xbbb"`, the code stores
`["0xbbb"]`, while the claimed bounded FIFO (trailing 1000 of
old ++ emitted) would be `["0xaaa", "0xbbb"]` — the old entry is
discarded even though fewer than 1000 newer hashes were emitted. -/
theorem poll_processedTxHashes_not_fifo :
    poll ⟨5, 0, ["0xaaa"]⟩ 100 (.ok 10) (fun _ _ => .ok [⟨"0xbbb"⟩]) 7
      = .done (some [⟨"0xbbb"⟩]) ⟨10, 7, ["0xbbb"]⟩ ∧
    sliceLast 1000 (["0xaaa"] ++ ["0xbbb"]) = ["0xaaa", "0xbbb"] ∧
    (["0xbbb"] : List String) ≠ ["0xaaa", "0xbbb"] :=
  ⟨by decide, by decide, by decide⟩

/-- C6: of the fixed event topic constants the log-based decoders pass to
`eth_getLogs`, the `certificateTransferred`, `didCreated` and `didUpdated`
ones are well-formed 32-byte topic hashes (`0x` + 64 hex digits), but the
`certificateIssued` one — `'0x' + 'CertificateIssued'.padEnd(64, '0')` —
is not (it contains non-hex letters), contradicting the claim. -/
theorem eventTopic_hash_formats :
    isTopicHash certificateTransferredTopic = true ∧
    isTopicHash didCreatedTopic = true ∧
    isTopicHash didUpdatedTopic = true ∧
    isTopicHash certificateIssuedTopic = false ∧
    certificateIssuedTopic
      = "0xCertificateIssued00000000000000000000000000000000000000000000000" :=
  ⟨by decide, by decide, by decide, by decide, by decide⟩

/-- C7: the `largeTransfer` cutoff is exactly `threshold · 10¹⁸` base
units: a transaction whose value meets it exactly is included and one a
single base unit below is excluded (given the address filter passes). -/
theorem largeTransfer_threshold_boundary (threshold : Nat) (f : String) (tx : Tx)
    (hpass : passesAddressFilter f tx.txFrom tx.txTo = true) :
    thresholdWei threshold = threshold * 10 ^ 18 ∧
    (tx.value = thresholdWei threshold → largeTransferIncluded threshold f tx = true) ∧
    (tx.value + 1 = thresholdWei threshold → largeTransferIncluded threshold f tx = false) := by
  refine ⟨rfl, ?_, ?_⟩
  · intro hv
    simp only [largeTransferIncluded, hpass, Bool.not_true]
    rw [if_neg (by omega), if_neg (by simp)]
  · intro hv
    simp only [largeTransferIncluded]
    rw [if_pos (by omega)]

/-- Witness for `largeTransfer_threshold_boundary`: with threshold 100 EWT
and no address filter, value `100·10¹⁸` is included and `100·10¹⁸ − 1`
is excluded. -/
theorem largeTransfer_threshold_boundary_witness :
    largeTransferIncluded 100 "" ⟨"0xh1", "0xa", none, 100 * 10 ^ 18⟩ = true ∧
    largeTransferIncluded 100 "" ⟨"0xh2", "0xa", none, 100 * 10 ^ 18 - 1⟩ = false :=
  ⟨(largeTransfer_threshold_boundary 100 "" ⟨"0xh1", "0xa", none, 100 * 10 ^ 18⟩
      (by decide)).2.1 rfl,
   (largeTransfer_threshold_boundary 100 "" ⟨"0xh2", "0xa", none, 100 * 10 ^ 18 - 1⟩
      (by decide)).2.2 (by norm_num [thresholdWei])⟩

/-- C8: when the EW Scan indexer call raises, `pollAssetRegistered`
returns the empty event list, and the surrounding poll completes without
raising: it returns `null` and performs only the cursor update
(`lastBlockNumber := H`, fresh timestamp, empty hash window). -/
theorem assetRegistered_graceful_degradation (e f : String) (s : PollState)
    (lb H now : Nat) (hw : computeFromBlock s lb H ≤ H) :
    pollAssetRegistered f (.error e) = [] ∧
    poll s lb (.ok H)
      (fun _ _ => .ok ((pollAssetRegistered f (.error e)).map
        (fun a => TriggerEvent.mk a.transactionHash))) now
      = .done none { lastBlockNumber := H, lastTimestamp := now, processedTxHashes := [] } := by
  refine ⟨rfl, ?_⟩
  simp only [poll]
  rw [if_neg (by omega)]
  rfl

/-- Witness for `assetRegistered_graceful_degradation` at a concrete
state: cursor at 0, lookback 10, height 5. -/
theorem assetRegistered_graceful_degradation_witness :
    pollAssetRegistered "0xabc" (.error "indexer down") = [] ∧
    poll ⟨0, 0, []⟩ 10 (.ok 5)
      (fun _ _ => .ok ((pollAssetRegistered "0xabc" (.error "indexer down")).map
        (fun a => TriggerEvent.mk a.transactionHash))) 3
      = .done none { lastBlockNumber := 5, lastTimestamp := 3, processedTxHashes := [] } :=
  assetRegistered_graceful_degradation "indexer down" "0xabc" ⟨0, 0, []⟩ 10 5 3 (by decide)

/-- C9: with an active (non-empty, format-valid) filter address, the
`certificateTransferred` decoder emits a log's event exactly when the
decoded `from` or `to` participant matches the filter address
case-insensitively. -/
theorem certTransferred_filter_case_insensitive (f : String) (log : LogRecord)
    (hne : f ≠ "") (hv : isValidAddress f = true) :
    certTransferredEvents f [log] ≠ [] ↔
      strToLower (topicAddress log.topics[2]?) = strToLower f ∨
      strToLower (topicAddress log.topics[3]?) = strToLower f := by
  have hact : addressFilterActive f = true := by
    simp [addressFilterActive, hv, hne]
  simp only [certTransferredEvents, List.filterMap_cons, List.filterMap_nil, hact,
    Bool.true_and]
  by_cases h2 : strToLower (topicAddress log.topics[2]?) = strToLower f
  · rw [if_neg (by simp [h2])]
    simp [h2]
  · by_cases h3 : strToLower (topicAddress log.topics[3]?) = strToLower f
    · rw [if_neg (by simp [h3])]
      simp [h3]
    · rw [if_pos (by simp [bne_iff_ne, h2, h3])]
      simp [h2, h3]

/-- Witness for `certTransferred_filter_case_insensitive`: a transfer log
with `from = 0xAA…A`, `to = 0xBB…B` is emitted under filter `0xbb…b`
(case-insensitive match on `to`) and suppressed under filter `0xCC…C`. -/
theorem certTransferred_filter_case_insensitive_witness :
    certTransferredEvents ("0x" ++ String.mk (List.replicate 40 'b'))
      [⟨"0xct", [certificateTransferredTopic, "0x01",
                 String.mk (List.replicate 24 '0' ++ List.replicate 40 'A'),
                 String.mk (List.replicate 24 '0' ++ List.replicate 40 'B')],
        "0x", "0x64", "0xhash1", "0x0"⟩] ≠ [] ∧
    ¬ (certTransferredEvents ("0x" ++ String.mk (List.replicate 40 'C'))
      [⟨"0xct", [certificateTransferredTopic, "0x01",
                 String.mk (List.replicate 24 '0' ++ List.replicate 40 'A'),
                 String.mk (List.replicate 24 '0' ++ List.replicate 40 'B')],
        "0x", "0x64", "0xhash1", "0x0"⟩] ≠ []) :=
  ⟨(certTransferred_filter_case_insensitive ("0x" ++ String.mk (List.replicate 40 'b'))
      ⟨"0xct", [certificateTransferredTopic, "0x01",
                String.mk (List.replicate 24 '0' ++ List.replicate 40 'A'),
                String.mk (List.replicate 24 '0' ++ List.replicate 40 'B')],
        "0x", "0x64", "0xhash1", "0x0"⟩ (by decide) (by decide)).mpr
      (Or.inr (by decide)),
   fun hne =>
     ((certTransferred_filter_case_insensitive ("0x" ++ String.mk (List.replicate 40 'C'))
        ⟨"0xct", [certificateTransferredTopic, "0x01",
                  String.mk (List.replicate 24 '0' ++ List.replicate 40 'A'),
                  String.mk (List.replicate 24 '0' ++ List.replicate 40 'B')],
          "0x", "0x64", "0xhash1", "0x0"⟩ (by decide) (by decide)).mp hne).elim
       (fun h => by revert h; decide) (fun h => by revert h; decide)⟩

/-- C10 (implicit): a non-empty filter address that fails
`isValidAddress` deactivates the address filter in every decoder — each
decoder behaves exactly as with no filter at all (and, for
`certificateIssued`, emits one event per fetched log), so an invalid
filter never suppresses events and never raises. -/
theorem invalid_filter_skipped (f : String) (_hne : f ≠ "")
    (hv : isValidAddress f = false) :
    (∀ logs, certIssuedEvents f logs = certIssuedEvents "" logs) ∧
    (∀ logs, (certIssuedEvents f logs).length = logs.length) ∧
    (∀ logs, certTransferredEvents f logs = certTransferredEvents "" logs) ∧
    (∀ v logs, didCreatedEvents v f logs = didCreatedEvents v "" logs) ∧
    (∀ v logs, didUpdatedEvents v f logs = didUpdatedEvents v "" logs) ∧
    (∀ r, pollAssetRegistered f r = pollAssetRegistered "" r) ∧
    (∀ T br a b, pollLargeTransfer T f br a b = pollLargeTransfer T "" br a b) := by
  have hf : addressFilterActive f = false := by
    simp [addressFilterActive, hv]
  have h0 : addressFilterActive "" = false := by decide
  refine ⟨?_, ?_, ?_, ?_, ?_, ?_, ?_⟩
  · intro logs
    simp only [certIssuedEvents, hf, h0, Bool.false_and, Bool.false_eq_true, if_false]
  · intro logs
    simp only [certIssuedEvents, hf, Bool.false_and, Bool.false_eq_true, if_false]
    exact length_filterMap_some _ logs
  · intro logs
    simp only [certTransferredEvents, hf, h0, Bool.false_and, Bool.false_eq_true, if_false]
  · intro v logs
    simp only [didCreatedEvents, hf, h0, Bool.false_and, Bool.false_eq_true, if_false]
  · intro v logs
    simp only [didUpdatedEvents, hf, h0, Bool.false_and, Bool.false_eq_true, if_false]
  · intro r
    rcases r with e | items
    · rfl
    · simp only [pollAssetRegistered, hf, h0, Bool.false_and, Bool.false_eq_true, if_false]
  · intro T br a b
    have hinc : largeTransferIncluded T f = largeTransferIncluded T "" := by
      funext tx
      simp [largeTransferIncluded, passesAddressFilter, hf, h0]
    simp only [pollLargeTransfer, hinc]

/-- Witness for `invalid_filter_skipped`: the malformed filter `0x123`
changes nothing about the `certificateIssued` decoder's output on a
concrete log, and that output has one event per log. -/
theorem invalid_filter_skipped_witness :
    certIssuedEvents "0x123"
        [⟨"0xc", [certificateIssuedTopic, "0x05",
                  String.mk (List.replicate 24 '0' ++ List.replicate 40 'a')],
          "0x", "0x2", "0xh", "0x0"⟩]
      = certIssuedEvents ""
        [⟨"0xc", [certificateIssuedTopic, "0x05",
                  String.mk (List.replicate 24 '0' ++ List.replicate 40 'a')],
          "0x", "0x2", "0xh", "0x0"⟩] ∧
    (certIssuedEvents "0x123"
        [⟨"0xc", [certificateIssuedTopic, "0x05",
                  String.mk (List.replicate 24 '0' ++ List.replicate 40 'a')],
          "0x", "0x2", "0xh", "0x0"⟩]).length = 1 :=
  ⟨(invalid_filter_skipped "0x123" (by decide) (by decide)).1
      [⟨"0xc", [certificateIssuedTopic, "0x05",
                String.mk (List.replicate 24 '0' ++ List.replicate 40 'a')],
        "0x", "0x2", "0xh", "0x0"⟩],
   (invalid_filter_skipped "0x123" (by decide) (by decide)).2.1
      [⟨"0xc", [certificateIssuedTopic, "0x05",
                String.mk (List.replicate 24 '0' ++ List.replicate 40 'a')],
        "0x", "0x2", "0xh", "0x0"⟩]⟩

end EnergyWeb
